import Mathlib

/-!
Shallow embedding of the go-http-pgsql-krb5 repository: the Kerberos token
construction paths (internal/handlers/ipa.go, pkg/pgx/provider.go), the two
HTTP handlers, and the process-wide GSS provider registration used by the
database connection path.
-/

/-- GSS context-flag constants of the gokrb5 gssapi package (RFC 2744 bits). -/
def ContextFlagDeleg : Nat := 1

/-- Mutual-authentication flag bit. -/
def ContextFlagMutual : Nat := 2

/-- Replay-detection flag bit. -/
def ContextFlagReplay : Nat := 4

/-- Sequence-checking flag bit. -/
def ContextFlagSequence : Nat := 8

/-- Confidentiality flag bit. -/
def ContextFlagConf : Nat := 16

/-- Integrity flag bit. -/
def ContextFlagInteg : Nat := 32

/-- Anonymity flag bit. -/
def ContextFlagAnon : Nat := 64

/-- Bitmask union of a list of requested GSS context flags, as the checksum
field of the AP-REQ authenticator encodes them. -/
def encodeFlags (fs : List Nat) : Nat := fs.foldl (fun acc f => acc ||| f) 0

/-- Wire-format KRB5 GSS initiator token; only the encoded protection-flag
field of the authenticator checksum is modelled. -/
structure KRB5Token where
  checksumFlags : Nat
deriving DecidableEq

/-- Modelled from the spec: the external gokrb5 spnego.NewKRB5TokenAPREQ
constructor (outside src/) builds the initiator token, "setting exactly the
requested protection flags" in the authenticator it encodes. -/
def NewKRB5TokenAPREQ (fs : List Nat) : KRB5Token := ⟨encodeFlags fs⟩

/-- Decode side of the flag round trip: tests one flag bit in a token. -/
def hasFlag (t : KRB5Token) (f : Nat) : Bool := t.checksumFlags &&& f != 0

/-- Flag list passed at internal/handlers/ipa.go:75 (HTTP Negotiate path). -/
def loginKerberosFlags : List Nat := [ContextFlagInteg, ContextFlagConf]

/-- Flag list passed at pkg/pgx/provider.go:62 (database wire path). -/
def getInitTokenFlags : List Nat := [ContextFlagInteg, ContextFlagConf, ContextFlagMutual]

/-- The token built on the HTTP Negotiate path (ipa.go:73-77). -/
def loginKerberosToken : KRB5Token := NewKRB5TokenAPREQ loginKerberosFlags

/-- The token built on the database wire path (provider.go:60-64). -/
def wireToken : KRB5Token := NewKRB5TokenAPREQ getInitTokenFlags

/-- Go strings.ToLower at the character level (ASCII case mapping, which is
all hostname handling exercises). -/
def lowerStr (s : String) : String := ⟨s.data.map Char.toLower⟩

/-- Go strings.TrimSuffix: removes at most one trailing occurrence of suf. -/
def trimSuffixStr (s suf : String) : String :=
  if suf.data.isSuffixOf s.data then ⟨s.data.take (s.data.length - suf.data.length)⟩ else s

/-- pkg/pgx/provider.go:82-86: lower-case, then trim one trailing dot. -/
def canonicalizeHost (h : String) : String := trimSuffixStr (lowerStr h) "."

/-- internal/handlers/ipa.go:46: hostname handling on the HTTP Negotiate path
(lower-case only; no trimming of a trailing dot). -/
def loginKerberosHost (hostname : String) : String := lowerStr hostname

/-- internal/handlers/ipa.go:47: SPN formed on the HTTP Negotiate path. -/
def loginKerberosSPN (hostname : String) : String := "HTTP/" ++ loginKerberosHost hostname

/-- pkg/pgx/provider.go:48-51: SPN formed on the database wire path. -/
def getInitTokenSPN (service host : String) : String := service ++ "/" ++ canonicalizeHost host

/-- The spec's description of SPN hostname handling (lower-case and trim),
stated separately for comparison with the two code paths. -/
def specCanonHost (h : String) : String := trimSuffixStr (lowerStr h) "."

/-- A service ticket: only the target SPN and validity-end are modelled. -/
structure ServiceTicket where
  spn : String
  endTime : Nat
deriving DecidableEq

/-- Memo of service tickets keyed by (principal, SPN). -/
abbrev TicketCache := List ((String × String) × ServiceTicket)

/-- Lookup in the (principal, SPN)-keyed memo. -/
def cacheLookup (st : TicketCache) (p s : String) : Option ServiceTicket :=
  (st.find? (fun e => e.1 == (p, s))).map (fun e => e.2)

/-- Modelled from the spec: TicketBroker.GetTicket memoizes successful results
keyed by (principal, SPN) until the ticket's validity-end, revalidating a hit
against validity-end at read time; the memo itself lives in the external
gokrb5 client (client.GetServiceTicket), outside src/. A ticket issued at
time now is valid until now + lifetime. -/
def GetTicket (lifetime : Nat) (st : TicketCache) (now : Nat) (p s : String) :
    ServiceTicket × TicketCache :=
  match cacheLookup st p s with
  | some t =>
    if now < t.endTime then (t, st)
    else
      let fresh : ServiceTicket := ⟨s, now + lifetime⟩
      (fresh, ((p, s), fresh) :: st)
  | none =>
    let fresh : ServiceTicket := ⟨s, now + lifetime⟩
    (fresh, ((p, s), fresh) :: st)

/-- pkg/pgx/provider.go:72-80: the GSS Continue step. The unmarshalOK
parameter abstracts whether the peer's bytes parse as a recognized KRB5
message (spnego.KRB5Token.Unmarshal); the result is (done, outToken, err) and,
as in the source, both branches return (true, nil, nil). -/
def Continue (unmarshalOK : List Nat → Bool) (inToken : List Nat) :
    Bool × Option (List Nat) × Option String :=
  if unmarshalOK inToken then (true, none, none) else (true, none, none)

/-- Modelled from the spec: the wire-protocol driver (the downstream client
library, outside src/) feeds each peer message to Continue until done,
counting any further tokens the adapter asks it to send. -/
def continueTokens (unmarshalOK : List Nat → Bool) : List (List Nat) → Nat
  | [] => 0
  | m :: rest =>
    match Continue unmarshalOK m with
    | (true, out, _) => if out.isSome then 1 else 0
    | (false, out, _) => (if out.isSome then 1 else 0) + continueTokens unmarshalOK rest

/-- Tokens sent in one connection attempt: the initial token obtained through
GetInitToken, plus whatever the Continue loop emits. -/
def tokensSentPerAttempt (unmarshalOK : List Nat → Bool) (msgs : List (List Nat)) : Nat :=
  1 + continueTokens unmarshalOK msgs

/-- An HTTP cookie: name and value. -/
structure Cookie where
  name : String
  value : String
deriving DecidableEq

/-- The part of the login_kerberos HTTP response the handler inspects. -/
structure LoginResponse where
  statusCode : Nat
  cookies : List Cookie
deriving DecidableEq

/-- Failure cases of the HTTP Negotiate login (ipa.go:94-115). -/
inductive LoginErr where
  | transportFailure
  | downstreamAuthRejected (status : Nat)
  | sessionCookieMissing
deriving DecidableEq

/-- Go strings.HasPrefix at the character level. -/
def strStarts (pre s : String) : Bool := pre.data.isPrefixOf s.data

/-- internal/handlers/ipa.go:106-112: the first response cookie whose name
starts with "ipa_session". -/
def findSessionCookie (cs : List Cookie) : Option Cookie :=
  cs.find? (fun c => strStarts "ipa_session" c.name)

/-- internal/handlers/ipa.go:101-116: handling of the login_kerberos response. -/
def handleLoginResponse (resp : LoginResponse) : Except LoginErr Cookie :=
  if resp.statusCode ≠ 200 then Except.error (LoginErr.downstreamAuthRejected resp.statusCode)
  else
    match findSessionCookie resp.cookies with
    | some c => Except.ok c
    | none => Except.error LoginErr.sessionCookieMissing

/-- internal/handlers/ipa.go:93-116: exactly one request is sent, so only the
first element of the stream of responses the server would give is ever
consulted — the adapter never retries with the same token. -/
def loginKerberosExchange : List LoginResponse → Except LoginErr Cookie
  | [] => Except.error LoginErr.transportFailure
  | r :: _ => handleLoginResponse r

/-- Go strings.Split at the character level: splits on every occurrence of
sep; Split("", sep) = [""]. -/
def goSplit (sep : Char) : List Char → List (List Char)
  | [] => [[]]
  | c :: rest =>
    if c = sep then [] :: goSplit sep rest
    else
      match goSplit sep rest with
      | [] => [[c]]
      | p :: ps => (c :: p) :: ps

/-- The [1] index into strings.Split(value, ":") as written at ipa.go:174 and
ipa.go:232; none models the out-of-range panic. -/
def secondField (s : String) : Option String :=
  ((goSplit ':' s.data).get? 1).map (fun cs => ⟨cs⟩)

/-- The parts of an inbound HTTP request the two handlers inspect: headers,
URL query parameters, and the authenticated identity attached to the request
context by the inbound SPNEGO layer. -/
structure HttpRequest where
  headers : List (String × String)
  query : List (String × String)
  identity : Option String
deriving DecidableEq

/-- Go http.Header.Get / url.Values.Get: empty string when the key is absent. -/
def kvGet (kvs : List (String × String)) (k : String) : String :=
  match kvs.find? (fun e => e.1 == k) with
  | some e => e.2
  | none => ""

/-- One row of the fixed query, after the three type assertions at
ipa.go:266-268 (current_user, session_user, now()). -/
structure DbRow where
  currentUser : String
  sessionUser : String
  timestamp : Nat
deriving DecidableEq

/-- The record type encoded to the client (ipa.go:220-224). -/
structure DbData where
  currentUser : String
  sessionUser : String
  timestamp : Nat
deriving DecidableEq

/-- The zero value of dbData, as make([]dbData, n) fills the slice with. -/
def zeroDbData : DbData := ⟨"", "", 0⟩

/-- ipa.go:264-268: decoding one row into a dbData record. -/
def decodeRow (r : DbRow) : DbData := ⟨r.currentUser, r.sessionUser, r.timestamp⟩

/-- internal/handlers/ipa.go:260-271: a slice pre-sized to len(rows) zero
values, then append of each decoded row. -/
def buildUserDataList (rows : List DbRow) : List DbData :=
  rows.foldl (fun acc row => acc ++ [decodeRow row]) (List.replicate rows.length zeroDbData)

/-- Externally visible actions of a handler invocation. -/
inductive HandlerAction where
  | respond (status : Nat)
  | respondJson (body : List DbData)
  | userShowCall (ccache uid : String)
  | queryAsUserCall (ccache user : String)
  | crash
deriving DecidableEq

/-- internal/handlers/ipa.go:165-206 as a trace of externally visible
actions; userShowOK abstracts the outcome of the downstream UserShow call. -/
def IpaUserHandler (req : HttpRequest) (userShowOK : Bool) : List HandlerAction :=
  let ccacheRaw := kvGet req.headers "X_krb5ccname"
  if ccacheRaw = "" then [HandlerAction.respond 401]
  else
    match secondField ccacheRaw with
    | none => [HandlerAction.crash]
    | some ccache =>
      let uid := kvGet req.query "uid"
      if uid = "" then [HandlerAction.respond 400]
      else if userShowOK then
        [HandlerAction.userShowCall ccache uid, HandlerAction.respond 200]
      else
        [HandlerAction.userShowCall ccache uid, HandlerAction.respond 502]

/-- internal/handlers/ipa.go:226-279 as a trace of externally visible
actions; queryResult abstracts the outcome of pgx.QueryAsUser. The
nil-identity branch writes 401 without returning, then dereferences the nil
identity at ipa.go:240 (crash). -/
def TestSelectHandler (req : HttpRequest) (queryResult : Except String (List DbRow)) :
    List HandlerAction :=
  let ccacheRaw := kvGet req.headers "X_krb5ccname"
  if ccacheRaw = "" then [HandlerAction.respond 401]
  else
    match secondField ccacheRaw with
    | none => [HandlerAction.crash]
    | some ccache =>
      match req.identity with
      | none => [HandlerAction.respond 401, HandlerAction.crash]
      | some username =>
        match queryResult with
        | Except.error _ =>
          [HandlerAction.queryAsUserCall ccache username, HandlerAction.respond 500]
        | Except.ok rows =>
          [HandlerAction.queryAsUserCall ccache username,
           HandlerAction.respondJson (buildUserDataList rows)]

/-- One step of a request's interaction with the process-wide GSS provider
registration point. -/
inductive SlotStep where
  | registerProvider (rid : Nat)
  | connectAndAuth (rid : Nat)
deriving DecidableEq

/-- pkg/pgx/provider.go:96-112: QueryAsUser first calls
pgconn.RegisterGSSProvider (a process-wide registration), then
pgx.ConnectConfig, whose GSS authentication consults the registration point
lazily at connection time. No lock is taken anywhere in between, and the HTTP
handlers invoke QueryAsUser concurrently, so steps of two requests may
interleave arbitrarily. -/
def queryAsUserSteps (rid : Nat) : List SlotStep :=
  [SlotStep.registerProvider rid, SlotStep.connectAndAuth rid]

/-- All interleavings of two sequential step lists (fuel-driven recursion;
the fuel is the total length, which suffices). -/
def interleavingsFuel : Nat → List SlotStep → List SlotStep → List (List SlotStep)
  | 0, xs, ys => [xs ++ ys]
  | _ + 1, [], ys => [ys]
  | _ + 1, x :: xs, [] => [x :: xs]
  | n + 1, x :: xs, y :: ys =>
    (interleavingsFuel n xs (y :: ys)).map (fun t => x :: t) ++
      (interleavingsFuel n (x :: xs) ys).map (fun t => y :: t)

/-- All interleavings of the step lists of two concurrent requests. -/
def interleavings (xs ys : List SlotStep) : List (List SlotStep) :=
  interleavingsFuel (xs.length + ys.length) xs ys

/-- Runs a trace against the single process-wide registration slot,
recording, for every connection, which request's factory the registration
point held at that instant. -/
def observedFactories : Option Nat → List SlotStep → List (Nat × Option Nat)
  | _, [] => []
  | _, SlotStep.registerProvider r :: rest => observedFactories (some r) rest
  | reg, SlotStep.connectAndAuth r :: rest => (r, reg) :: observedFactories reg rest

theorem cacheLookup_cons_self (st : TicketCache) (p s : String) (t : ServiceTicket) :
    cacheLookup (((p, s), t) :: st) p s = some t := by
  simp [cacheLookup]

theorem getTicket_lookup (L : Nat) (st : TicketCache) (now : Nat) (p s : String) :
    cacheLookup (GetTicket L st now p s).2 p s = some (GetTicket L st now p s).1 := by
  unfold GetTicket
  cases h : cacheLookup st p s with
  | none => simpa using cacheLookup_cons_self st p s _
  | some t =>
    by_cases hv : now < t.endTime
    · simp [hv, h]
    · simpa [hv] using cacheLookup_cons_self st p s _

theorem getTicket_hit (L : Nat) (st : TicketCache) (now : Nat) (p s : String)
    (t : ServiceTicket) (h : cacheLookup st p s = some t) (hv : now < t.endTime) :
    GetTicket L st now p s = (t, st) := by
  simp [GetTicket, h, hv]

theorem getTicket_reissue (L : Nat) (st : TicketCache) (now : Nat) (p s : String)
    (t : ServiceTicket) (h : cacheLookup st p s = some t) (hv : t.endTime ≤ now) :
    (GetTicket L st now p s).1.endTime = now + L := by
  simp [GetTicket, h, Nat.not_lt_of_le hv]

theorem continue_eq (u : List Nat → Bool) (t : List Nat) :
    Continue u t = (true, none, none) := by
  unfold Continue
  exact ite_self _

theorem continueTokens_eq_zero (u : List Nat → Bool) (msgs : List (List Nat)) :
    continueTokens u msgs = 0 := by
  cases msgs with
  | nil => rfl
  | cons m rest => simp [continueTokens, continue_eq]

/-- C2: every authentication token carries exactly the protection flags its
downstream protocol requires — the HTTP Negotiate token (ipa.go:73-77)
encodes integrity and confidentiality and no other flag, and the database
wire token (provider.go:60-64) encodes integrity, confidentiality and
mutual authentication and no other flag (request flags in, decode flags out). -/
theorem c2_protection_flags_exact :
    (hasFlag loginKerberosToken ContextFlagInteg = true ∧
      hasFlag loginKerberosToken ContextFlagConf = true ∧
      hasFlag loginKerberosToken ContextFlagMutual = false ∧
      hasFlag loginKerberosToken ContextFlagDeleg = false ∧
      hasFlag loginKerberosToken ContextFlagReplay = false ∧
      hasFlag loginKerberosToken ContextFlagSequence = false ∧
      hasFlag loginKerberosToken ContextFlagAnon = false) ∧
    (hasFlag wireToken ContextFlagInteg = true ∧
      hasFlag wireToken ContextFlagConf = true ∧
      hasFlag wireToken ContextFlagMutual = true ∧
      hasFlag wireToken ContextFlagDeleg = false ∧
      hasFlag wireToken ContextFlagReplay = false ∧
      hasFlag wireToken ContextFlagSequence = false ∧
      hasFlag wireToken ContextFlagAnon = false) := by
  decide

/-- C3: for any (principal, SPN) pair, after a first GetTicket call, a second
call within the first ticket's validity window returns a ticket with the
identical validity-end (cache hit), while a call at or past validity-end
issues a fresh ticket whose validity-end is strictly later. -/
theorem c3_ticket_cache_validity (L : Nat) (hL : 0 < L) (st : TicketCache)
    (now1 now2 now3 : Nat) (p s : String)
    (h2 : now2 < ((GetTicket L st now1 p s).1).endTime)
    (h3 : ((GetTicket L st now1 p s).1).endTime ≤ now3) :
    ((GetTicket L (GetTicket L st now1 p s).2 now2 p s).1).endTime
        = ((GetTicket L st now1 p s).1).endTime ∧
      ((GetTicket L (GetTicket L st now1 p s).2 now3 p s).1).endTime = now3 + L ∧
      ((GetTicket L st now1 p s).1).endTime
        < ((GetTicket L (GetTicket L st now1 p s).2 now3 p s).1).endTime := by
  have hl := getTicket_lookup L st now1 p s
  refine ⟨?_, ?_, ?_⟩
  · rw [getTicket_hit L _ now2 p s _ hl h2]
  · exact getTicket_reissue L _ now3 p s _ hl h3
  · rw [getTicket_reissue L _ now3 p s _ hl h3]
    calc ((GetTicket L st now1 p s).1).endTime ≤ now3 := h3
      _ < now3 + L := Nat.lt_add_of_pos_right hL

/-- Witness for C3 at lifetime 10, empty cache, times 0, 5 and 12. -/
theorem c3_ticket_cache_validity_witness :
    ((0 : Nat) < 10 ∧
      5 < ((GetTicket 10 [] 0 "alice" "postgres/db").1).endTime ∧
      ((GetTicket 10 [] 0 "alice" "postgres/db").1).endTime ≤ 12) ∧
    (((GetTicket 10 (GetTicket 10 [] 0 "alice" "postgres/db").2 5 "alice" "postgres/db").1).endTime
        = ((GetTicket 10 [] 0 "alice" "postgres/db").1).endTime ∧
      ((GetTicket 10 (GetTicket 10 [] 0 "alice" "postgres/db").2 12 "alice" "postgres/db").1).endTime
        = 12 + 10 ∧
      ((GetTicket 10 [] 0 "alice" "postgres/db").1).endTime
        < ((GetTicket 10 (GetTicket 10 [] 0 "alice" "postgres/db").2 12 "alice" "postgres/db").1).endTime) :=
  ⟨⟨by decide, by decide, by decide⟩,
    c3_ticket_cache_validity 10 (by decide) [] 0 5 12 "alice" "postgres/db"
      (by decide) (by decide)⟩

/-- C4 counterexample: on the HTTP Negotiate path the hostname is only
lower-cased, never trimmed — a trailing dot survives into the SPN, so the
claim that both paths lower-case and trim fails at hostname
"IPA.Example.Com.". -/
theorem c4_http_path_skips_trim :
    loginKerberosSPN "IPA.Example.Com." = "HTTP/ipa.example.com." ∧
    loginKerberosSPN "IPA.Example.Com." ≠ "HTTP/" ++ specCanonHost "IPA.Example.Com." ∧
    getInitTokenSPN "postgres" "IPA.Example.Com."
      = "postgres/" ++ specCanonHost "IPA.Example.Com." := by
  refine ⟨?_, ?_, ?_⟩ <;> decide

/-- C4 amended: the database wire path forms the SPN by lower-casing and
trimming one trailing dot from the hostname, while the HTTP Negotiate path
only lower-cases it. -/
theorem c4_spn_formation_amended (service hostname : String) :
    getInitTokenSPN service hostname
        = service ++ "/" ++ trimSuffixStr (lowerStr hostname) "." ∧
      loginKerberosSPN hostname = "HTTP/" ++ lowerStr hostname :=
  ⟨rfl, rfl⟩

/-- C5: for every input byte string the wire adapter's Continue step returns
done with no output token and no error — whether or not the peer's bytes
parse as a recognized message — so one connection attempt sends exactly one
token (the initial one). -/
theorem c5_continue_single_round (unmarshalOK : List Nat → Bool) (inToken : List Nat)
    (msgs : List (List Nat)) :
    Continue unmarshalOK inToken = (true, none, none) ∧
      tokensSentPerAttempt unmarshalOK msgs = 1 :=
  ⟨continue_eq unmarshalOK inToken, by
    simp [tokensSentPerAttempt, continueTokens_eq_zero]⟩

theorem find_first {α : Type} (p : α → Bool) (pre : List α) (c : α) (post : List α)
    (hpre : ∀ x ∈ pre, p x = false) (hc : p c = true) :
    (pre ++ c :: post).find? p = some c := by
  induction pre with
  | nil => simp [List.find?_cons, hc]
  | cons a as ih =>
    have ha : p a = false := hpre a (by simp)
    simp only [List.cons_append, List.find?_cons, ha]
    exact ih (fun x hx => hpre x (by simp [hx]))

/-- C6: the HTTP Negotiate login fails with downstream-auth-rejected on every
status other than 200 OK; on 200 it fails with session-cookie-missing exactly
when no cookie name starts with "ipa_session", and otherwise returns the
first such cookie; only the first response of the exchange is ever consulted
(no retry with the same token). -/
theorem c6_login_response (resp : LoginResponse) :
    (resp.statusCode ≠ 200 →
      handleLoginResponse resp
        = Except.error (LoginErr.downstreamAuthRejected resp.statusCode)) ∧
    (resp.statusCode = 200 →
      ((handleLoginResponse resp = Except.error LoginErr.sessionCookieMissing) ↔
        ∀ c ∈ resp.cookies, strStarts "ipa_session" c.name = false)) ∧
    (resp.statusCode = 200 →
      ∀ pre c post, resp.cookies = pre ++ c :: post →
        (∀ x ∈ pre, strStarts "ipa_session" x.name = false) →
        strStarts "ipa_session" c.name = true →
        handleLoginResponse resp = Except.ok c) ∧
    (∀ rest, loginKerberosExchange (resp :: rest) = handleLoginResponse resp) := by
  refine ⟨?_, ?_, ?_, ?_⟩
  · intro h
    simp [handleLoginResponse, h]
  · intro h
    simp only [handleLoginResponse, h, ne_eq, not_true_eq_false, if_false]
    cases hf : findSessionCookie resp.cookies with
    | none =>
      simp only [true_iff]
      intro c hc
      have := List.find?_eq_none.mp hf c hc
      simpa using this
    | some c =>
      simp only [reduceCtorEq, false_iff, not_forall]
      refine ⟨c, List.mem_of_find?_eq_some hf, ?_⟩
      have := List.find?_some hf
      simp [this]
  · intro h pre c post hsplit hpre hc
    have : findSessionCookie resp.cookies = some c := by
      unfold findSessionCookie
      rw [hsplit]
      exact find_first _ pre c post (fun x hx => hpre x hx) hc
    simp [handleLoginResponse, h, this]
  · intro rest
    rfl

/-- Witness for C6 at a 403 response, a 200 response without session cookie,
and a 200 response whose second cookie is the session cookie. -/
theorem c6_login_response_witness :
    ((403 : Nat) ≠ 200 ∧
      handleLoginResponse ⟨403, []⟩
        = Except.error (LoginErr.downstreamAuthRejected 403)) ∧
    handleLoginResponse ⟨200, [⟨"other", "v"⟩]⟩
      = Except.error LoginErr.sessionCookieMissing ∧
    handleLoginResponse ⟨200, [⟨"other", "v"⟩, ⟨"ipa_session_id", "s"⟩]⟩
      = Except.ok ⟨"ipa_session_id", "s"⟩ ∧
    loginKerberosExchange [⟨403, []⟩]
      = handleLoginResponse ⟨403, []⟩ :=
  ⟨⟨by decide, (c6_login_response ⟨403, []⟩).1 (by decide)⟩,
    ((c6_login_response ⟨200, [⟨"other", "v"⟩]⟩).2.1 rfl).mpr (by decide),
    (c6_login_response ⟨200, [⟨"other", "v"⟩, ⟨"ipa_session_id", "s"⟩]⟩).2.2.1 rfl
      [⟨"other", "v"⟩] ⟨"ipa_session_id", "s"⟩ [] rfl (by decide) (by decide),
    (c6_login_response ⟨403, []⟩).2.2.2 []⟩

/-- C7: a request whose X_krb5ccname header is absent or empty makes both
handlers respond 401 immediately: the trace is exactly one unauthorized
response, with no credential loading, ticket acquisition or downstream call. -/
theorem c7_no_header_unauthorized (req : HttpRequest) (userShowOK : Bool)
    (queryResult : Except String (List DbRow))
    (h : kvGet req.headers "X_krb5ccname" = "") :
    IpaUserHandler req userShowOK = [HandlerAction.respond 401] ∧
      TestSelectHandler req queryResult = [HandlerAction.respond 401] := by
  constructor
  · simp [IpaUserHandler, h]
  · simp [TestSelectHandler, h]

/-- Witness for C7 at a request with no headers at all. -/
theorem c7_no_header_unauthorized_witness :
    kvGet (HttpRequest.mk [] [] none).headers "X_krb5ccname" = "" ∧
    IpaUserHandler ⟨[], [], none⟩ true = [HandlerAction.respond 401] ∧
    TestSelectHandler ⟨[], [], none⟩ (Except.ok []) = [HandlerAction.respond 401] :=
  ⟨rfl,
    (c7_no_header_unauthorized ⟨[], [], none⟩ true (Except.ok []) rfl).1,
    (c7_no_header_unauthorized ⟨[], [], none⟩ true (Except.ok []) rfl).2⟩

theorem goSplit_no_sep (sep : Char) (l : List Char) (h : sep ∉ l) :
    goSplit sep l = [l] := by
  induction l with
  | nil => rfl
  | cons c rest ih =>
    have hc : ¬c = sep := fun hceq => h (hceq ▸ List.mem_cons_self c rest)
    have hrest : sep ∉ rest := fun hm => h (List.mem_cons_of_mem c hm)
    simp [goSplit, hc, ih hrest]

theorem goSplit_ne_nil (sep : Char) (l : List Char) : goSplit sep l ≠ [] := by
  induction l with
  | nil => simp [goSplit]
  | cons c rest ih =>
    simp only [goSplit]
    split
    · simp
    · cases hr : goSplit sep rest with
      | nil => simp
      | cons p ps => simp

theorem goSplit_sep_mem_length (sep : Char) (l : List Char) (h : sep ∈ l) :
    2 ≤ (goSplit sep l).length := by
  induction l with
  | nil => cases h
  | cons c rest ih =>
    by_cases hc : c = sep
    · have h1 : 1 ≤ (goSplit sep rest).length :=
        Nat.one_le_iff_ne_zero.mpr (by
          intro h0
          exact goSplit_ne_nil sep rest (List.length_eq_zero.mp h0))
      subst hc
      simp only [goSplit, if_pos, List.length_cons]
      omega
    · have hrest : sep ∈ rest := by
        cases List.mem_cons.mp h with
        | inl heq => exact absurd heq.symm hc
        | inr hm => exact hm
      have h2 := ih hrest
      simp only [goSplit, hc, if_false, ite_false]
      cases hr : goSplit sep rest with
      | nil => exact absurd hr (goSplit_ne_nil sep rest)
      | cons p ps =>
        rw [hr] at h2
        simpa using h2

theorem get_one_of_two_le {α : Type} (l : List α) (h : 2 ≤ l.length) :
    (l.get? 1).isSome = true := by
  cases l with
  | nil => simp at h
  | cons a l1 =>
    cases l1 with
    | nil => simp at h
    | cons b l2 => simp

/-- C8: both handlers take the second colon-separated field of a non-empty
X_krb5ccname header; the extraction succeeds exactly when the value contains
a colon, and on a non-empty value without a colon the index access is out of
range, so the handler crashes instead of answering with an error response. -/
theorem c8_second_colon_field (s : String) (userShowOK : Bool)
    (queryResult : Except String (List DbRow)) :
    (':' ∈ s.data → (secondField s).isSome = true) ∧
    (':' ∉ s.data → secondField s = none) ∧
    (s ≠ "" → ':' ∉ s.data →
      IpaUserHandler ⟨[("X_krb5ccname", s)], [], none⟩ userShowOK
          = [HandlerAction.crash] ∧
        TestSelectHandler ⟨[("X_krb5ccname", s)], [], none⟩ queryResult
          = [HandlerAction.crash]) := by
  refine ⟨?_, ?_, ?_⟩
  · intro h
    have h2 := goSplit_sep_mem_length ':' s.data h
    have h3 := get_one_of_two_le _ h2
    unfold secondField
    cases hg : (goSplit ':' s.data).get? 1 with
    | none => rw [hg] at h3; simp at h3
    | some v => simp
  · intro h
    unfold secondField
    rw [goSplit_no_sep ':' s.data h]
    rfl
  · intro hne h
    have hsf : secondField s = none := by
      unfold secondField
      rw [goSplit_no_sep ':' s.data h]
      rfl
    have hkv : kvGet [("X_krb5ccname", s)] "X_krb5ccname" = s := by
      simp [kvGet]
    constructor
    · simp [IpaUserHandler, hkv, hne, hsf]
    · simp [TestSelectHandler, hkv, hne, hsf]

/-- Witness for C8 at header values "FILE:/tmp/krb5cc" (colon present) and
"FILE" (non-empty, no colon). -/
theorem c8_second_colon_field_witness :
    (':' ∈ "FILE:/tmp/krb5cc".data ∧ (secondField "FILE:/tmp/krb5cc").isSome = true) ∧
    (':' ∉ "FILE".data ∧ secondField "FILE" = none) ∧
    ("FILE" ≠ "" ∧
      IpaUserHandler ⟨[("X_krb5ccname", "FILE")], [], none⟩ true
          = [HandlerAction.crash] ∧
        TestSelectHandler ⟨[("X_krb5ccname", "FILE")], [], none⟩ (Except.ok [])
          = [HandlerAction.crash]) :=
  ⟨⟨by decide, (c8_second_colon_field "FILE:/tmp/krb5cc" true (Except.ok [])).1 (by decide)⟩,
    ⟨by decide, (c8_second_colon_field "FILE" true (Except.ok [])).2.1 (by decide)⟩,
    by decide,
    (c8_second_colon_field "FILE" true (Except.ok [])).2.2 (by decide) (by decide)⟩

/-- C9: when the credential header is usable but no authenticated identity is
attached to the request context, TestSelectHandler writes an unauthorized
response and still continues, dereferencing the nil identity — the trace is
a 401 followed by a crash, so the handler is total only when an identity is
present. -/
theorem c9_nil_identity_crash (req : HttpRequest)
    (queryResult : Except String (List DbRow)) (c : String)
    (hcc : secondField (kvGet req.headers "X_krb5ccname") = some c)
    (hid : req.identity = none) :
    TestSelectHandler req queryResult
      = [HandlerAction.respond 401, HandlerAction.crash] := by
  have hne : kvGet req.headers "X_krb5ccname" ≠ "" := by
    intro h
    rw [h] at hcc
    simp [secondField, goSplit] at hcc
  simp [TestSelectHandler, hne, hcc, hid]

/-- Witness for C9 at a request carrying a well-formed header and no identity. -/
theorem c9_nil_identity_crash_witness :
    secondField (kvGet (HttpRequest.mk [("X_krb5ccname", "FILE:/tmp/cc")] [] none).headers
        "X_krb5ccname") = some "/tmp/cc" ∧
    (HttpRequest.mk [("X_krb5ccname", "FILE:/tmp/cc")] [] none).identity = none ∧
    TestSelectHandler ⟨[("X_krb5ccname", "FILE:/tmp/cc")], [], none⟩ (Except.ok [])
      = [HandlerAction.respond 401, HandlerAction.crash] :=
  ⟨by decide, rfl,
    c9_nil_identity_crash ⟨[("X_krb5ccname", "FILE:/tmp/cc")], [], none⟩ (Except.ok [])
      "/tmp/cc" (by decide) rfl⟩

theorem foldl_append_map {α β : Type} (f : α → β) (rows : List α) (init : List β) :
    rows.foldl (fun acc r => acc ++ [f r]) init = init ++ rows.map f := by
  induction rows generalizing init with
  | nil => simp
  | cons r rest ih => simp [List.foldl_cons, ih]

/-- C10: for a query result of N rows, the array TestSelectHandler encodes
holds 2·N elements — N zero-valued records from pre-sizing the slice,
followed by the N decoded records — not just the N decoded records. -/
theorem c10_doubled_rows (rows : List DbRow) :
    buildUserDataList rows
        = List.replicate rows.length zeroDbData ++ rows.map decodeRow ∧
      (buildUserDataList rows).length = 2 * rows.length ∧
      TestSelectHandler ⟨[("X_krb5ccname", "FILE:/tmp/cc")], [], some "jdoe"⟩
          (Except.ok rows)
        = [HandlerAction.queryAsUserCall "/tmp/cc" "jdoe",
           HandlerAction.respondJson
             (List.replicate rows.length zeroDbData ++ rows.map decodeRow)] := by
  have hb : buildUserDataList rows
      = List.replicate rows.length zeroDbData ++ rows.map decodeRow :=
    foldl_append_map decodeRow rows (List.replicate rows.length zeroDbData)
  refine ⟨hb, ?_, ?_⟩
  · rw [hb]
    simp
    omega
  · have hh : TestSelectHandler ⟨[("X_krb5ccname", "FILE:/tmp/cc")], [], some "jdoe"⟩
        (Except.ok rows)
      = [HandlerAction.queryAsUserCall "/tmp/cc" "jdoe",
         HandlerAction.respondJson (buildUserDataList rows)] := rfl
    rw [hh, hb]

/-- C1: the claim that the registration-to-unregistration window is never
entered by two requests at once fails on the code: QueryAsUser takes no lock
between pgconn.RegisterGSSProvider and pgx.ConnectConfig, so the interleaving
in which request 1 registers its factory between request 0's registration and
request 0's connection is reachable, and request 0's connection then observes
request 1's factory. -/
theorem c1_registration_window_race :
    [SlotStep.registerProvider 0, SlotStep.registerProvider 1,
        SlotStep.connectAndAuth 0, SlotStep.connectAndAuth 1] ∈
      interleavings (queryAsUserSteps 0) (queryAsUserSteps 1) ∧
    (0, some 1) ∈ observedFactories none
      [SlotStep.registerProvider 0, SlotStep.registerProvider 1,
        SlotStep.connectAndAuth 0, SlotStep.connectAndAuth 1] ∧
    (some 1 : Option Nat) ≠ some 0 := by
  refine ⟨?_, ?_, ?_⟩ <;> decide
